import Mathlib

set_option maxHeartbeats 1000000

/-!
Shallow embedding of the count-reconciliation engine of `sensor_v2.py`
(classes `SystemState`, `OfflineDataManager`, `DatabaseManager`,
`SensorSystem`).  Remote and local-store calls whose success depends on
the environment are parametrised by explicit outcome flags; timestamps
are abstracted as naturals.
-/

/-- `ConnectionStatus` enum of `sensor_v2.py` (lines 28-33). -/
inductive ConnectionStatus where
  | connected
  | disconnected
  | reconnecting
  | error
deriving DecidableEq, Repr

/-- `SystemState` dataclass (lines 44-61); UI-only fields and timestamps
are omitted, counters kept. -/
structure SystemState where
  live_count : Nat := 0
  counting_paused : Bool := false
  last_confirmed_count : Nat := 0
  unconfirmed_count : Nat := 0
  pending_upload_count : Nat := 0
  connection_status : ConnectionStatus := ConnectionStatus.disconnected
deriving DecidableEq, Repr

/-- `SystemState.total_unconfirmed_count` property (lines 63-66). -/
def total_unconfirmed_count (s : SystemState) : Nat :=
  s.last_confirmed_count + s.unconfirmed_count + s.live_count + s.pending_upload_count

/-- A row of the local SQLite `offline_counts` table (lines 211-220 and the
`CountRecord` dataclass of lines 35-41, with the `db_id` attached by
`get_pending_records`).  The timestamp is dropped; the queue list is kept
in insertion (timestamp) order. -/
structure CountRecord where
  db_id : Nat
  count : Nat
  uploaded : Bool := false
  retry_count : Nat := 0
deriving DecidableEq, Repr

/-- `OfflineDataManager.get_pending_records` (lines 245-274): all rows with
`uploaded = FALSE`, oldest first (the list is kept in insertion order). -/
def get_pending_records (q : List CountRecord) : List CountRecord :=
  q.filter (fun r => !r.uploaded)

/-- `OfflineDataManager.mark_uploaded` (lines 276-293): set `uploaded = TRUE`
for every row whose id is in `ids`. -/
def mark_uploaded (ids : List Nat) (q : List CountRecord) : List CountRecord :=
  q.map (fun r => if r.db_id ∈ ids then { r with uploaded := true } else r)

/-- `OfflineDataManager.increment_retry_count` (lines 295-311). -/
def increment_retry_count (id : Nat) (q : List CountRecord) : List CountRecord :=
  q.map (fun r => if r.db_id = id then { r with retry_count := r.retry_count + 1 } else r)

/-- `OfflineDataManager.get_total_pending_count` (lines 313-330): sum of
`count` over the rows with `uploaded = FALSE`. -/
def get_total_pending_count (q : List CountRecord) : Nat :=
  ((get_pending_records q).map (fun r => r.count)).sum

/-- `OfflineDataManager.add_count_record` (lines 225-243).  `ok` is the
outcome of the SQLite insert: on success a fresh row is appended and `True`
returned, on failure the store is unchanged and `False` returned. -/
def add_count_record (q : List CountRecord) (newId : Nat) (count : Nat) (ok : Bool) :
    List CountRecord × Bool :=
  if ok then (q ++ [{ db_id := newId, count := count }], true) else (q, false)

/-- `SensorSystem.confirm_count` (lines 517-554).  `uploadOk` is the outcome
of `DatabaseManager.upload_count_data`, `confirmOk` the outcome of
`DatabaseManager.confirm_counts`, `addOk` the outcome of
`OfflineDataManager.add_count_record`, and `newId` the id SQLite would give
a newly inserted row.  Returns the new `SystemState` and local queue. -/
def confirm_count (s : SystemState) (q : List CountRecord)
    (uploadOk confirmOk addOk : Bool) (newId : Nat) :
    SystemState × List CountRecord :=
  if s.live_count = 0 then (s, q)
  else if s.connection_status = ConnectionStatus.connected then
    let new_total := total_unconfirmed_count s
    if uploadOk then
      if confirmOk then
        let s' := { s with last_confirmed_count := new_total
                         , unconfirmed_count := 0
                         , live_count := 0
                         , pending_upload_count := 0 }
        let pending := get_pending_records q
        let q' := if pending.isEmpty then q
                  else mark_uploaded (pending.map (fun r => r.db_id)) q
        (s', q')
      else (s, q)
    else (s, q)
  else
    let q' := (add_count_record q newId s.live_count addOk).1
    let s' := { s with pending_upload_count := get_total_pending_count q'
                     , live_count := 0 }
    (s', q')

/-- Helper: after marking a superset of the pending ids, nothing is pending. -/
theorem get_pending_mark_nil (ids : List Nat) (q : List CountRecord)
    (h : ∀ r ∈ q, r.uploaded = false → r.db_id ∈ ids) :
    get_pending_records (mark_uploaded ids q) = [] := by
  unfold get_pending_records mark_uploaded
  rw [List.filter_eq_nil_iff]
  intro a ha
  rcases List.mem_map.mp ha with ⟨r, hr, hra⟩
  cases hu : r.uploaded with
  | false =>
    have hmem := h r hr hu
    rw [if_pos hmem] at hra
    subst hra
    simp
  | true =>
    by_cases hmem : r.db_id ∈ ids
    · rw [if_pos hmem] at hra
      subst hra
      simp
    · rw [if_neg hmem] at hra
      subst hra
      simp [hu]

/-- Helper: the connected, both-calls-succeed branch of `confirm_count`. -/
theorem confirm_count_connected_success_eq (s : SystemState) (q : List CountRecord)
    (addOk : Bool) (newId : Nat)
    (hne : s.live_count ≠ 0) (h2 : s.connection_status = ConnectionStatus.connected) :
    confirm_count s q true true addOk newId =
      ({ s with last_confirmed_count := total_unconfirmed_count s
              , unconfirmed_count := 0
              , live_count := 0
              , pending_upload_count := 0 },
       if (get_pending_records q).isEmpty then q
       else mark_uploaded ((get_pending_records q).map (fun r => r.db_id)) q) := by
  unfold confirm_count
  rw [if_neg hne, if_pos h2]
  rfl

/-- C1: with `liveCount > 0` and status CONNECTED, a `confirm_count` in which
both `upload_count_data` and `confirm_counts` succeed sets
`lastConfirmedCount` to `lastConfirmedCount + unconfirmedRemoteCount +
liveCount + pendingUploadCount`, resets `liveCount`,
`unconfirmedRemoteCount` and `pendingUploadCount` to 0, and marks every
currently-pending local record uploaded. -/
theorem confirm_count_connected_success (s : SystemState) (q : List CountRecord)
    (addOk : Bool) (newId : Nat)
    (h1 : 0 < s.live_count) (h2 : s.connection_status = ConnectionStatus.connected) :
    (confirm_count s q true true addOk newId).1.last_confirmed_count
        = s.last_confirmed_count + s.unconfirmed_count + s.live_count
            + s.pending_upload_count
    ∧ (confirm_count s q true true addOk newId).1.live_count = 0
    ∧ (confirm_count s q true true addOk newId).1.unconfirmed_count = 0
    ∧ (confirm_count s q true true addOk newId).1.pending_upload_count = 0
    ∧ get_pending_records (confirm_count s q true true addOk newId).2 = [] := by
  have hne : s.live_count ≠ 0 := Nat.pos_iff_ne_zero.mp h1
  rw [confirm_count_connected_success_eq s q addOk newId hne h2]
  refine ⟨rfl, rfl, rfl, rfl, ?_⟩
  by_cases hp : (get_pending_records q).isEmpty
  · rw [if_pos hp]
    exact List.isEmpty_iff.mp hp
  · rw [if_neg hp]
    apply get_pending_mark_nil
    intro r hr hu
    exact List.mem_map.mpr ⟨r, List.mem_filter.mpr ⟨hr, by simp [hu]⟩, rfl⟩

/-- C1 witness: Scenario C, `liveCount = 3`, `pendingUploadCount = 0`,
`lastConfirmedCount = 100`, `unconfirmedRemoteCount = 2`, connected:
the confirmed total becomes 105 and the other counters reset. -/
theorem confirm_count_connected_success_witness :
    ((confirm_count
        { live_count := 3, last_confirmed_count := 100, unconfirmed_count := 2,
          pending_upload_count := 0, connection_status := ConnectionStatus.connected }
        [] true true true 1).1.last_confirmed_count = 100 + 2 + 3 + 0
      ∧ (confirm_count
        { live_count := 3, last_confirmed_count := 100, unconfirmed_count := 2,
          pending_upload_count := 0, connection_status := ConnectionStatus.connected }
        [] true true true 1).1.live_count = 0
      ∧ (confirm_count
        { live_count := 3, last_confirmed_count := 100, unconfirmed_count := 2,
          pending_upload_count := 0, connection_status := ConnectionStatus.connected }
        [] true true true 1).1.unconfirmed_count = 0
      ∧ (confirm_count
        { live_count := 3, last_confirmed_count := 100, unconfirmed_count := 2,
          pending_upload_count := 0, connection_status := ConnectionStatus.connected }
        [] true true true 1).1.pending_upload_count = 0
      ∧ get_pending_records (confirm_count
        { live_count := 3, last_confirmed_count := 100, unconfirmed_count := 2,
          pending_upload_count := 0, connection_status := ConnectionStatus.connected }
        [] true true true 1).2 = [])
    ∧ (100 + 2 + 3 + 0 = 105) :=
  ⟨confirm_count_connected_success
      { live_count := 3, last_confirmed_count := 100, unconfirmed_count := 2,
        pending_upload_count := 0, connection_status := ConnectionStatus.connected }
      [] true 1 (by decide) rfl,
    by decide⟩

/-- C2: with `liveCount > 0` and status CONNECTED, if either remote call of
`confirm_count` fails (`uploadOk = false` or `confirmOk = false`), the
`SystemState` and the local queue are returned exactly as they were. -/
theorem confirm_count_failure_preserves_state (s : SystemState) (q : List CountRecord)
    (uploadOk confirmOk addOk : Bool) (newId : Nat)
    (h1 : 0 < s.live_count) (h2 : s.connection_status = ConnectionStatus.connected)
    (h3 : uploadOk = false ∨ confirmOk = false) :
    confirm_count s q uploadOk confirmOk addOk newId = (s, q) := by
  have hne : s.live_count ≠ 0 := Nat.pos_iff_ne_zero.mp h1
  unfold confirm_count
  rw [if_neg hne, if_pos h2]
  rcases h3 with h | h
  · subst h
    simp
  · subst h
    cases uploadOk <;> simp

/-- C2 witness: a connected `confirm_count` with `liveCount = 3` whose
`confirm_counts` call fails leaves state and queue untouched. -/
theorem confirm_count_failure_preserves_state_witness :
    confirm_count
        { live_count := 3, last_confirmed_count := 100, unconfirmed_count := 2,
          pending_upload_count := 0, connection_status := ConnectionStatus.connected }
        [⟨1, 5, false, 0⟩] true false true 7
      = ({ live_count := 3, last_confirmed_count := 100, unconfirmed_count := 2,
           pending_upload_count := 0, connection_status := ConnectionStatus.connected },
         [⟨1, 5, false, 0⟩]) :=
  confirm_count_failure_preserves_state
    { live_count := 3, last_confirmed_count := 100, unconfirmed_count := 2,
      pending_upload_count := 0, connection_status := ConnectionStatus.connected }
    [⟨1, 5, false, 0⟩] true false true 7 (by decide) rfl (Or.inr rfl)

/-- Helper: the offline (not CONNECTED) branch of `confirm_count`. -/
theorem confirm_count_offline_eq (s : SystemState) (q : List CountRecord)
    (uploadOk confirmOk addOk : Bool) (newId : Nat)
    (hne : s.live_count ≠ 0) (h2 : s.connection_status ≠ ConnectionStatus.connected) :
    confirm_count s q uploadOk confirmOk addOk newId =
      ({ s with pending_upload_count :=
                  get_total_pending_count (add_count_record q newId s.live_count addOk).1
              , live_count := 0 },
       (add_count_record q newId s.live_count addOk).1) := by
  unfold confirm_count
  rw [if_neg hne, if_neg h2]

/-- C10: with `liveCount > 0`, `confirm_count` takes the offline path for
every status other than CONNECTED (DISCONNECTED, RECONNECTING or ERROR):
the result is independent of the remote-call outcomes (no remote call),
and on a successful durable write the live count is appended to the local
queue, `liveCount` is zeroed, `pendingUploadCount` is recomputed from the
queue, and the other counters are unchanged. -/
theorem confirm_count_offline_path (s : SystemState) (q : List CountRecord)
    (uploadOk confirmOk uploadOk' confirmOk' addOk : Bool) (newId : Nat)
    (h1 : 0 < s.live_count) (h2 : s.connection_status ≠ ConnectionStatus.connected) :
    confirm_count s q uploadOk confirmOk addOk newId
        = confirm_count s q uploadOk' confirmOk' addOk newId
    ∧ (confirm_count s q uploadOk confirmOk true newId).2
        = q ++ [{ db_id := newId, count := s.live_count }]
    ∧ (confirm_count s q uploadOk confirmOk true newId).1.live_count = 0
    ∧ (confirm_count s q uploadOk confirmOk true newId).1.pending_upload_count
        = get_total_pending_count (confirm_count s q uploadOk confirmOk true newId).2
    ∧ (confirm_count s q uploadOk confirmOk true newId).1.last_confirmed_count
        = s.last_confirmed_count
    ∧ (confirm_count s q uploadOk confirmOk true newId).1.unconfirmed_count
        = s.unconfirmed_count := by
  have hne : s.live_count ≠ 0 := Nat.pos_iff_ne_zero.mp h1
  rw [confirm_count_offline_eq s q uploadOk confirmOk addOk newId hne h2,
      confirm_count_offline_eq s q uploadOk' confirmOk' addOk newId hne h2,
      confirm_count_offline_eq s q uploadOk confirmOk true newId hne h2]
  exact ⟨rfl, rfl, rfl, rfl, rfl, rfl⟩

/-- C10 witness: status RECONNECTING (not merely DISCONNECTED), `liveCount = 5`:
the offline path is taken, inspected at concrete remote outcomes. -/
theorem confirm_count_offline_path_witness :
    confirm_count
        { live_count := 5, connection_status := ConnectionStatus.reconnecting }
        [] true true true 1
      = confirm_count
        { live_count := 5, connection_status := ConnectionStatus.reconnecting }
        [] false false true 1
    ∧ (confirm_count
        { live_count := 5, connection_status := ConnectionStatus.reconnecting }
        [] true true true 1).2 = [{ db_id := 1, count := 5 }]
    ∧ (confirm_count
        { live_count := 5, connection_status := ConnectionStatus.reconnecting }
        [] true true true 1).1.live_count = 0
    ∧ (confirm_count
        { live_count := 5, connection_status := ConnectionStatus.reconnecting }
        [] true true true 1).1.pending_upload_count
        = get_total_pending_count (confirm_count
            { live_count := 5, connection_status := ConnectionStatus.reconnecting }
            [] true true true 1).2
    ∧ (confirm_count
        { live_count := 5, connection_status := ConnectionStatus.reconnecting }
        [] true true true 1).1.last_confirmed_count
        = ({ live_count := 5, connection_status := ConnectionStatus.reconnecting }
            : SystemState).last_confirmed_count
    ∧ (confirm_count
        { live_count := 5, connection_status := ConnectionStatus.reconnecting }
        [] true true true 1).1.unconfirmed_count
        = ({ live_count := 5, connection_status := ConnectionStatus.reconnecting }
            : SystemState).unconfirmed_count :=
  confirm_count_offline_path
    { live_count := 5, connection_status := ConnectionStatus.reconnecting }
    [] true true false false true 1 (by decide) (by decide)

/-- C6 counterexample: `confirm_count` offline with `liveCount = 5` whose
durable-queue write fails (`addOk = false`) still resets `liveCount` to 0
and leaves the queue empty: the count is discarded, contradicting the
claim that `liveCount` is retained for a later retry. -/
theorem confirm_count_addfail_discards_cex :
    (confirm_count { live_count := 5 } [] true true false 1).1.live_count = 0
    ∧ (confirm_count { live_count := 5 } [] true true false 1).2 = []
    ∧ ({ live_count := 5 } : SystemState).connection_status
        = ConnectionStatus.disconnected := by
  exact ⟨rfl, rfl, rfl⟩

/-- C6 amended: in the offline path of `confirm_count` the result of
`add_count_record` is ignored: on a failed durable write the queue is
unchanged, yet `liveCount` is still reset to 0 (and `pendingUploadCount`
recomputed from the unchanged queue), so the count is dropped rather than
retained. -/
theorem confirm_count_addfail_resets_live (s : SystemState) (q : List CountRecord)
    (uploadOk confirmOk : Bool) (newId : Nat)
    (h1 : 0 < s.live_count) (h2 : s.connection_status ≠ ConnectionStatus.connected) :
    confirm_count s q uploadOk confirmOk false newId
      = ({ s with pending_upload_count := get_total_pending_count q,
                  live_count := 0 }, q) := by
  have hne : s.live_count ≠ 0 := Nat.pos_iff_ne_zero.mp h1
  rw [confirm_count_offline_eq s q uploadOk confirmOk false newId hne h2]
  rfl

/-- C6 amended witness: offline `confirm_count` with `liveCount = 5` and a
failed durable write, evaluated at a concrete state. -/
theorem confirm_count_addfail_resets_live_witness :
    confirm_count { live_count := 5 } [⟨3, 2, false, 0⟩] true true false 9
      = ({ live_count := 0, pending_upload_count := 2 }, [⟨3, 2, false, 0⟩]) :=
  (confirm_count_addfail_resets_live { live_count := 5 } [⟨3, 2, false, 0⟩]
    true true 9 (by decide) (by decide)).trans (by decide)

/-- Detector state of `SensorSystem`: the shared `SystemState` plus the
`old_state` attribute (line 476). -/
structure SensorSys where
  state : SystemState
  old_state : Nat
deriving DecidableEq, Repr

/-- The initial `old_state` value from `SensorSystem.__init__` (line 476):
`2`, an impossible GPIO reading. -/
def init_old_state : Nat := 2

/-- `SensorSystem.detect_metal` (lines 492-504): return immediately while
paused (without sampling); otherwise, if the reading differs from
`old_state`, increment `liveCount` when the reading is 1, and in either
case track the reading as the new `old_state`. -/
def detect_metal (sys : SensorSys) (input : Nat) : SensorSys :=
  if sys.state.counting_paused then sys
  else if input ≠ sys.old_state then
    { sys with
        state := if input = 1 then
                   { sys.state with live_count := sys.state.live_count + 1 }
                 else sys.state,
        old_state := input }
  else sys

/-- `SensorSystem.toggle_pause` (lines 506-510). -/
def toggle_pause (sys : SensorSys) : SensorSys :=
  { sys with state := { sys.state with counting_paused := !sys.state.counting_paused } }

/-- A run of the detection loop over a list of GPIO readings. -/
def run_samples (sys : SensorSys) : List Nat → SensorSys
  | [] => sys
  | v :: rest => run_samples (detect_metal sys v) rest

/-- An interleaving of detection-loop samples and Button-1 pause toggles. -/
inductive SensorOp where
  | sample (v : Nat)
  | togglePause
deriving DecidableEq, Repr

/-- Run an interleaved trace of samples and pause toggles. -/
def run_ops (sys : SensorSys) : List SensorOp → SensorSys
  | [] => sys
  | SensorOp.sample v :: rest => run_ops (detect_metal sys v) rest
  | SensorOp.togglePause :: rest => run_ops (toggle_pause sys) rest

/-- Number of rising edges in a reading sequence, relative to a previous
tracked value. -/
def risingCount : Nat → List Nat → Nat
  | _, [] => 0
  | old, v :: rest => (if v = 1 ∧ v ≠ old then 1 else 0) + risingCount v rest

/-- C4 counterexample: from the start state (`old_state = 2`, not paused), a
first sample reading high already increments `liveCount` from 0 to 1 — the
very first sample does more than seed the previous state. -/
theorem first_sample_high_counts_cex :
    (detect_metal { state := {}, old_state := init_old_state } 1).state.live_count = 1
    ∧ ({} : SystemState).live_count = 0 := by
  exact ⟨rfl, rfl⟩

/-- C4 amended: the first sample after start seeds `old_state` with the
reading, and a first low sample causes no increment; but a first high
sample is treated as a rising edge from the impossible initial value 2 and
increments `liveCount` by one. -/
theorem first_sample_seeds_and_may_count (s : SystemState)
    (h : s.counting_paused = false) :
    detect_metal { state := s, old_state := init_old_state } 0
        = { state := s, old_state := 0 }
    ∧ detect_metal { state := s, old_state := init_old_state } 1
        = { state := { s with live_count := s.live_count + 1 }, old_state := 1 } := by
  constructor <;> simp [detect_metal, init_old_state, h]

/-- C4 amended witness: both first readings evaluated from the default
start state. -/
theorem first_sample_seeds_and_may_count_witness :
    detect_metal { state := {}, old_state := init_old_state } 0
        = { state := {}, old_state := 0 }
    ∧ detect_metal { state := {}, old_state := init_old_state } 1
        = { state := { live_count := 1 }, old_state := 1 } :=
  first_sample_seeds_and_may_count {} rfl

/-- While paused, `detect_metal` is the identity: it does not sample and
does not update `old_state`. -/
theorem detect_metal_paused (sys : SensorSys) (v : Nat)
    (h : sys.state.counting_paused = true) : detect_metal sys v = sys := by
  simp [detect_metal, h]

/-- `detect_metal` never changes the pause flag. -/
theorem detect_metal_preserves_paused (sys : SensorSys) (v : Nat) :
    (detect_metal sys v).state.counting_paused = sys.state.counting_paused := by
  unfold detect_metal
  split
  · rfl
  · split
    · split <;> rfl
    · rfl

/-- While active, `detect_metal` tracks the reading as the new `old_state`. -/
theorem detect_metal_old_state (sys : SensorSys) (v : Nat)
    (h : sys.state.counting_paused = false) : (detect_metal sys v).old_state = v := by
  by_cases hv : v = sys.old_state
  · subst hv
    simp [detect_metal, h]
  · simp [detect_metal, h, hv]

/-- While active, one sample adds exactly the rising-edge indicator. -/
theorem detect_metal_live (sys : SensorSys) (v : Nat)
    (h : sys.state.counting_paused = false) :
    (detect_metal sys v).state.live_count
      = sys.state.live_count + (if v = 1 ∧ v ≠ sys.old_state then 1 else 0) := by
  by_cases hv : v = sys.old_state
  · subst hv
    simp [detect_metal, h]
  · by_cases h1 : v = 1
    · subst h1
      simp [detect_metal, h, hv]
    · simp [detect_metal, h, hv, h1]

/-- Over an active run, `liveCount` grows by exactly the rising-edge count. -/
theorem run_samples_active (sys : SensorSys) (vs : List Nat)
    (h : sys.state.counting_paused = false) :
    (run_samples sys vs).state.live_count
      = sys.state.live_count + risingCount sys.old_state vs := by
  induction vs generalizing sys with
  | nil => rfl
  | cons v rest ih =>
    have hp : (detect_metal sys v).state.counting_paused = false := by
      rw [detect_metal_preserves_paused, h]
    have hold : (detect_metal sys v).old_state = v := detect_metal_old_state sys v h
    show (run_samples (detect_metal sys v) rest).state.live_count = _
    rw [ih (detect_metal sys v) hp, hold, detect_metal_live sys v h, risingCount]
    omega

/-- A paused run leaves the whole detector state untouched. -/
theorem run_samples_paused (sys : SensorSys) (vs : List Nat)
    (h : sys.state.counting_paused = true) : run_samples sys vs = sys := by
  induction vs with
  | nil => rfl
  | cons v rest ih =>
    show run_samples (detect_metal sys v) rest = sys
    rw [detect_metal_paused sys v h]
    exact ih

/-- C9 amended: while active, a run of N rising edges among the processed
samples increases `liveCount` by exactly N; while paused, samples are
skipped entirely (no change at all, nothing queued) — but since `old_state`
is also frozen during a pause, an input transition that happens while
paused is counted at the first sample after resume rather than discarded
(see the counterexample). -/
theorem live_count_increments_spec (sys : SensorSys) (vs : List Nat) :
    (sys.state.counting_paused = false →
      (run_samples sys vs).state.live_count
        = sys.state.live_count + risingCount sys.old_state vs)
    ∧ (sys.state.counting_paused = true → run_samples sys vs = sys) :=
  ⟨run_samples_active sys vs, run_samples_paused sys vs⟩

/-- C9 amended witness: an active run over readings `[1, 0, 1]` from seeded
`old_state = 0` adds exactly its two rising edges. -/
theorem live_count_increments_spec_witness :
    (run_samples { state := {}, old_state := 0 } [1, 0, 1]).state.live_count
        = ({} : SystemState).live_count + risingCount 0 [1, 0, 1]
    ∧ risingCount 0 [1, 0, 1] = 2 :=
  ⟨(live_count_increments_spec { state := {}, old_state := 0 } [1, 0, 1]).1 rfl,
    by decide⟩

/-- C9 counterexample: start active with seeded `old_state = 0`; pause; the
input goes high during the pause (sample skipped, no change while paused);
resume; the next sample still reads high — no rising edge occurs after
resume (`risingCount 1 [1] = 0`), yet `liveCount` becomes 1: the event
received while paused was deferred, not discarded. -/
theorem paused_event_counted_after_resume_cex :
    (run_ops { state := {}, old_state := 0 }
        [SensorOp.togglePause, SensorOp.sample 1]).state.live_count = 0
    ∧ (run_ops { state := {}, old_state := 0 }
        [SensorOp.togglePause, SensorOp.sample 1,
         SensorOp.togglePause, SensorOp.sample 1]).state.live_count = 1
    ∧ risingCount 1 [1] = 0 := by
  exact ⟨rfl, rfl, rfl⟩

/-- `DatabaseManager.__init__` retry-delay field (line 75): starts at 30s. -/
def initial_retry_delay : Nat := 30

/-- `DatabaseManager.__init__` ceiling field (line 76): 300s; the field is
declared but never read anywhere in the class. -/
def max_retry_delay : Nat := 300

/-- Effect of one `DatabaseManager.connect` call (lines 78-92) on
`retry_delay`: reset to 30 on success (line 87); the failure branch does
not touch it.  No other code assigns or reads `retry_delay`. -/
def connect_retry_delay (d : Nat) (ok : Bool) : Nat :=
  if ok then 30 else d

/-- C5: the retry delay never doubles.  After one consecutive connection
failure from the initial 30s it is still 30s (not the 60s the claim
requires), and along any sequence of connect outcomes whatsoever it stays
exactly 30s — the declared 300s ceiling (`max_retry_delay`) is
unreachable dead state. -/
theorem retry_delay_never_doubles :
    connect_retry_delay initial_retry_delay false = initial_retry_delay
    ∧ connect_retry_delay initial_retry_delay false ≠ 2 * initial_retry_delay
    ∧ initial_retry_delay < max_retry_delay
    ∧ ∀ outcomes : List Bool,
        outcomes.foldl connect_retry_delay initial_retry_delay = initial_retry_delay := by
  refine ⟨rfl, by decide, by decide, ?_⟩
  intro outcomes
  induction outcomes with
  | nil => rfl
  | cons b rest ih =>
    show rest.foldl connect_retry_delay (connect_retry_delay initial_retry_delay b)
        = initial_retry_delay
    cases b
    · exact ih
    · exact ih

/-- Result row of the confirmed-count query of
`DatabaseManager.get_current_counts` (lines 130-141): `none` models a
failed or empty query (line 138), `some c` a row with `reqCount = c`; the
second argument models the unconfirmed-sum query (lines 145-154), `none`
a failure or NULL sum. -/
def get_current_counts (confirmedRes : Option Nat) (unconfirmedRes : Option Nat) :
    Nat × Nat :=
  match confirmedRes with
  | none => (0, 0)
  | some c => (c, unconfirmedRes.getD 0)

/-- The count-refresh step of `SensorSystem._background_sync_loop`
(lines 582-585): assign both counters from `get_current_counts`. -/
def sync_update_counts (s : SystemState) (confirmedRes unconfirmedRes : Option Nat) :
    SystemState :=
  let counts := get_current_counts confirmedRes unconfirmedRes
  { s with last_confirmed_count := counts.1, unconfirmed_count := counts.2 }

/-- C7 counterexample: with `lastConfirmedCount = 100` and
`unconfirmedRemoteCount = 2`, a failed remote read (`none`) makes the sync
tick set both counters to 0 — the error path zeroes the counters instead
of keeping their previous values. -/
theorem sync_read_failure_zeroes_cex :
    (sync_update_counts
        { last_confirmed_count := 100, unconfirmed_count := 2,
          connection_status := ConnectionStatus.connected }
        none (some 5)).last_confirmed_count = 0
    ∧ (sync_update_counts
        { last_confirmed_count := 100, unconfirmed_count := 2,
          connection_status := ConnectionStatus.connected }
        none (some 5)).unconfirmed_count = 0 := by
  exact ⟨rfl, rfl⟩

/-- C7 amended: when the remote read of current counts fails,
`get_current_counts` returns `(0, 0)` and the sync tick assigns it, so
`lastConfirmedCount` and `unconfirmedRemoteCount` are silently zeroed;
on a successful read they are set to the returned values (a failed or NULL
unconfirmed sum alone zeroes only `unconfirmedRemoteCount`). -/
theorem sync_update_counts_spec (s : SystemState) (c u : Nat) (uo : Option Nat) :
    sync_update_counts s none uo
        = { s with last_confirmed_count := 0, unconfirmed_count := 0 }
    ∧ sync_update_counts s (some c) (some u)
        = { s with last_confirmed_count := c, unconfirmed_count := u }
    ∧ sync_update_counts s (some c) none
        = { s with last_confirmed_count := c, unconfirmed_count := 0 } := by
  exact ⟨rfl, rfl, rfl⟩

/-- The per-line production-status row of `heading_data`/`mfgreq_data`
touched by `DatabaseManager.confirm_counts` (lines 174-197): confirmed
total (`mfg.reqCount`), last-update timestamp (`hea.lastCountUpdate`,
abstracted to a natural) and running/idle status (`headStatus`,
`true` = ACTIVE). -/
structure RemoteHead where
  reqCount : Nat
  lastCountUpdate : Nat
  headStatusActive : Bool
deriving DecidableEq, Repr

/-- `DatabaseManager.confirm_counts` (lines 174-197): two separately
committed statements.  The first (`updateOk`) sets `reqCount` and
`lastCountUpdate` together; the second (`statusOk`) sets `headStatus` to
ACTIVE iff `new_count > 0`.  The returned flag is `result is not None` of
the first statement only (line 197); the second statement's outcome is
ignored. -/
def confirm_counts (head : RemoteHead) (new_count : Nat) (now : Nat)
    (updateOk statusOk : Bool) : RemoteHead × Bool :=
  let h1 := if updateOk then { head with reqCount := new_count, lastCountUpdate := now }
            else head
  let h2 := if statusOk then { h1 with headStatusActive := decide (0 < new_count) }
            else h1
  (h2, updateOk)

/-- C8 counterexample: starting from `⟨100, 0, idle⟩`, a `confirm_counts` to
total 5 whose first statement succeeds and whose status statement fails
leaves the remote row with the new total and timestamp but the stale idle
status (5 > 0 should derive ACTIVE), and still reports success — a partial
write, contradicting all-three-or-none atomicity. -/
theorem confirm_counts_partial_write_cex :
    (confirm_counts ⟨100, 0, false⟩ 5 7 true false).1 = ⟨5, 7, false⟩
    ∧ (confirm_counts ⟨100, 0, false⟩ 5 7 true false).2 = true
    ∧ decide (0 < 5) = true := by
  exact ⟨rfl, rfl, rfl⟩

/-- C8 amended: `confirm_counts` is two independent remote statements, not
one transaction: the confirmed total and the timestamp are applied
together iff the first statement succeeds, the derived running/idle status
is applied iff the second succeeds, and the reported outcome is that of
the first statement alone — so total+timestamp can be applied without the
status (or vice versa). -/
theorem confirm_counts_two_statements (head : RemoteHead) (new_count now : Nat)
    (updateOk statusOk : Bool) :
    (confirm_counts head new_count now updateOk statusOk).1.reqCount
        = (if updateOk then new_count else head.reqCount)
    ∧ (confirm_counts head new_count now updateOk statusOk).1.lastCountUpdate
        = (if updateOk then now else head.lastCountUpdate)
    ∧ (confirm_counts head new_count now updateOk statusOk).1.headStatusActive
        = (if statusOk then decide (0 < new_count) else head.headStatusActive)
    ∧ (confirm_counts head new_count now updateOk statusOk).2 = updateOk := by
  cases updateOk <;> cases statusOk <;> exact ⟨rfl, rfl, rfl, rfl⟩

/-- Result of the drain step of one `_background_sync_loop` tick
(lines 586-599): the queue after the pass, the collected `uploaded_ids`,
and — as an observation for specification purposes — the ids for which
`upload_count_data` was called, in call order. -/
structure DrainResult where
  queue : List CountRecord
  uploaded_ids : List Nat
  attempted_ids : List Nat
deriving DecidableEq, Repr

/-- The `for record in pending_records` loop (lines 590-595): every pending
record is processed in order — a success collects its id, a failure
increments its retry count, and the loop continues either way (there is no
break).  `uploadOk` gives each record's `upload_count_data` outcome by id. -/
def drain_loop (uploadOk : Nat → Bool) :
    List CountRecord → List CountRecord → DrainResult
  | q, [] => { queue := q, uploaded_ids := [], attempted_ids := [] }
  | q, r :: rest =>
    if uploadOk r.db_id then
      let res := drain_loop uploadOk q rest
      { res with uploaded_ids := r.db_id :: res.uploaded_ids,
                 attempted_ids := r.db_id :: res.attempted_ids }
    else
      let res := drain_loop uploadOk (increment_retry_count r.db_id q) rest
      { res with attempted_ids := r.db_id :: res.attempted_ids }

/-- The drain step of one `_background_sync_loop` tick (lines 588-599):
fetch the pending records once, run the loop over all of them, then
`mark_uploaded` the collected ids (the call is skipped when nothing was
collected, line 597). -/
def sync_drain (q : List CountRecord) (uploadOk : Nat → Bool) : DrainResult :=
  let pending := get_pending_records q
  if pending.isEmpty then { queue := q, uploaded_ids := [], attempted_ids := [] }
  else
    let res := drain_loop uploadOk q pending
    { res with queue := if res.uploaded_ids.isEmpty then res.queue
                        else mark_uploaded res.uploaded_ids res.queue }

/-- Folding `increment_retry_count` over a list of ids. -/
def incAll (fids : List Nat) (q : List CountRecord) : List CountRecord :=
  fids.foldl (fun acc i => increment_retry_count i acc) q

/-- Marking no ids changes nothing. -/
theorem mark_uploaded_nil (q : List CountRecord) : mark_uploaded [] q = q := by
  unfold mark_uploaded
  induction q with
  | nil => rfl
  | cons r rest ih => simp [ih]

/-- The loop calls `upload_count_data` for every pending record, in order. -/
theorem drain_loop_attempted (uploadOk : Nat → Bool) (pending q : List CountRecord) :
    (drain_loop uploadOk q pending).attempted_ids = pending.map (fun r => r.db_id) := by
  induction pending generalizing q with
  | nil => rfl
  | cons r rest ih =>
    by_cases hok : uploadOk r.db_id <;> simp [drain_loop, hok, ih]

/-- The collected ids are exactly those of the pending records whose upload
succeeded, in order. -/
theorem drain_loop_uploaded (uploadOk : Nat → Bool) (pending q : List CountRecord) :
    (drain_loop uploadOk q pending).uploaded_ids
      = (pending.filter (fun r => uploadOk r.db_id)).map (fun r => r.db_id) := by
  induction pending generalizing q with
  | nil => rfl
  | cons r rest ih =>
    by_cases hok : uploadOk r.db_id <;> simp [drain_loop, hok, ih, List.filter_cons]

/-- The loop's queue effect is `increment_retry_count` folded over the ids of
the pending records whose upload failed. -/
theorem drain_loop_queue (uploadOk : Nat → Bool) (pending q : List CountRecord) :
    (drain_loop uploadOk q pending).queue
      = incAll ((pending.filter (fun r => !uploadOk r.db_id)).map (fun r => r.db_id)) q := by
  induction pending generalizing q with
  | nil => rfl
  | cons r rest ih =>
    by_cases hok : uploadOk r.db_id <;>
      simp [drain_loop, hok, ih, List.filter_cons, incAll]

/-- Per-record view of `incAll`: each record's retry count grows by the
number of occurrences of its id among the failed ids. -/
theorem incAll_eq_map (fids : List Nat) (q : List CountRecord) :
    incAll fids q
      = q.map (fun r => { r with retry_count := r.retry_count + List.count r.db_id fids }) := by
  induction fids generalizing q with
  | nil =>
    show q = _
    symm
    apply List.map_id''
    intro r
    simp
  | cons i fids ih =>
    show incAll fids (increment_retry_count i q) = _
    rw [ih (increment_retry_count i q)]
    unfold increment_retry_count
    rw [List.map_map]
    apply List.map_congr_left
    intro r _
    by_cases hd : r.db_id = i <;>
      simp [Function.comp, hd, List.count_cons, CountRecord.mk.injEq] <;> omega

/-- C3 counterexample: queue `[record 1 (count 5), record 2 (count 7)]`, both
pending, where the upload of record 1 (the oldest) fails and that of
record 2 succeeds.  In one tick the loop still attempts record 2 after
record 1's failure (`attempted_ids = [1, 2]`), marks record 2 uploaded —
not the successfully uploaded prefix, which is empty — and increments
record 1's retry count: the drain does not stop at the first failure. -/
theorem sync_drain_no_stop_cex :
    (sync_drain [⟨1, 5, false, 0⟩, ⟨2, 7, false, 0⟩]
        (fun id => id == 2)).attempted_ids = [1, 2]
    ∧ (sync_drain [⟨1, 5, false, 0⟩, ⟨2, 7, false, 0⟩]
        (fun id => id == 2)).uploaded_ids = [2]
    ∧ (sync_drain [⟨1, 5, false, 0⟩, ⟨2, 7, false, 0⟩]
        (fun id => id == 2)).queue = [⟨1, 5, false, 1⟩, ⟨2, 7, true, 0⟩] := by
  exact ⟨rfl, rfl, rfl⟩

/-- C3 amended: on a drain tick the pending queue is traversed oldest-first
and `upload_count_data` is attempted for every pending record — the loop
does not stop at a failure.  `mark_uploaded` is applied to exactly the ids
of the pending records whose upload succeeded (not necessarily a prefix),
and `increment_retry_count` is applied for each pending record whose
upload failed. -/
theorem sync_drain_spec (q : List CountRecord) (uploadOk : Nat → Bool) :
    (sync_drain q uploadOk).attempted_ids
        = (get_pending_records q).map (fun r => r.db_id)
    ∧ (sync_drain q uploadOk).uploaded_ids
        = ((get_pending_records q).filter (fun r => uploadOk r.db_id)).map
            (fun r => r.db_id)
    ∧ (sync_drain q uploadOk).queue
        = mark_uploaded
            (((get_pending_records q).filter (fun r => uploadOk r.db_id)).map
              (fun r => r.db_id))
            (incAll
              (((get_pending_records q).filter (fun r => !uploadOk r.db_id)).map
                (fun r => r.db_id)) q) := by
  by_cases hp : (get_pending_records q).isEmpty
  · have hnil : get_pending_records q = [] := List.isEmpty_iff.mp hp
    simp only [sync_drain]
    rw [hnil]
    simp [mark_uploaded_nil, incAll]
  · simp only [sync_drain]
    rw [if_neg hp]
    refine ⟨?_, ?_, ?_⟩
    · simp [drain_loop_attempted]
    · simp [drain_loop_uploaded]
    · show (if (drain_loop uploadOk q (get_pending_records q)).uploaded_ids.isEmpty
              then (drain_loop uploadOk q (get_pending_records q)).queue
              else mark_uploaded (drain_loop uploadOk q (get_pending_records q)).uploaded_ids
                     (drain_loop uploadOk q (get_pending_records q)).queue) = _
      by_cases hu : (drain_loop uploadOk q (get_pending_records q)).uploaded_ids.isEmpty
      · rw [if_pos hu]
        have h2 : ((get_pending_records q).filter (fun r => uploadOk r.db_id)).map
            (fun r => r.db_id) = [] := by
          rw [← drain_loop_uploaded uploadOk (get_pending_records q) q]
          exact List.isEmpty_iff.mp hu
        rw [h2, mark_uploaded_nil, drain_loop_queue]
      · rw [if_neg hu, drain_loop_queue,
            ← drain_loop_uploaded uploadOk (get_pending_records q) q]
